import Mathlib

/-!
Verification of the email ingestion core of the moments-app repository.

The embedding below follows the Python sources:
  * src/lambdas/gmail_ingestor.py   (decoder, record builder, writer, handler)
  * src/lambdas/gmail_processor.py  (secret retriever handler)
  * src/moments_app/moments_app_stack.py (the DynamoDB key schema)

Python stdlib collaborators (email.utils.parseaddr,
email.utils.parsedate_to_datetime, datetime.now) are parameters of the
embedding, collected in the EmailEnv structure; the DynamoDB keyed store
is modelled by the documented contract of put_item (upsert by the primary
key declared in the stack).  Fallible Python code (KeyError on a dict
lookup, ValueError from date parsing) is modelled with Except.
-/

/-- A Gmail header: a name/value pair (gmail_ingestor.GmailHeader). -/
structure GmailHeader where
  name : String
  value : String
deriving DecidableEq, Repr

/-- The payload of a Gmail message (gmail_ingestor.GmailPayload). -/
structure GmailPayload where
  headers : List GmailHeader
deriving DecidableEq, Repr

/-- A raw Gmail message (gmail_ingestor.GmailMessage). -/
structure GmailMessage where
  id : String
  labelIds : List String
  payload : GmailPayload
deriving DecidableEq, Repr

/-- The persisted record (gmail_ingestor.EmailRecord, an attrs class).
The attrs defaults are reproduced at the single construction site in
build_ddb_item_from_gmail_dict below: labels defaults to the empty list,
ingested_at to the current UTC time, status to NEW, action to
apply_label. -/
structure EmailRecord where
  from_address : String
  message_id : String
  subject : String
  date : String
  time : String
  labels : List String
  ingested_at : String
  status : String
  action : String
deriving DecidableEq, Repr

/-- A naive local timestamp as carried by a Python datetime: the calendar
and clock fields, plus the timezone offset in minutes that
parsedate_to_datetime attaches as tzinfo.  strftime reads only the local
fields; it never applies tzMinutes. -/
structure PyDateTime where
  year : Nat
  month : Nat
  day : Nat
  hour : Nat
  minute : Nat
  second : Nat
  tzMinutes : Int
deriving DecidableEq, Repr

/-- The external Python stdlib collaborators used by the ingestor, as a
parameter of the embedding.
  * parseaddr models email.utils.parseaddr: total, returns the pair
    (display name, bare address).
  * parsedate_to_datetime models email.utils.parsedate_to_datetime:
    none models the ValueError raised on an unparsable RFC 5322 date.
  * now_utc_iso models datetime.now(timezone.utc).isoformat() at the
    moment the record is built. -/
structure EmailEnv where
  parseaddr : String → String × String
  parsedate_to_datetime : String → Option PyDateTime
  now_utc_iso : String

/-- One insertion step of a Python dict: if the key is present its value
is overwritten in place, otherwise the pair is appended (insertion
order preserved). -/
def dictInsert (m : List (String × String)) (k v : String) :
    List (String × String) :=
  if m.any (fun p => p.1 = k) then
    m.map (fun p => if p.1 = k then (k, v) else p)
  else
    m ++ [(k, v)]

/-- Python dict lookup on the association-list model. -/
def dictGet (m : List (String × String)) (k : String) : Option String :=
  (m.find? (fun p => p.1 = k)).map (fun p => p.2)

/-- Python str.lower(), modelled character by character so that
evaluation reduces in the kernel. -/
def pyLower (s : String) : String :=
  ⟨s.data.map Char.toLower⟩

/-- The dict comprehension of build_ddb_item_from_gmail_dict:
\x7bheader["name"].lower(): header["value"] for header in headers\x7d.
Later headers with the same lower-cased name overwrite earlier ones. -/
def headerMapOf (headers : List GmailHeader) : List (String × String) :=
  headers.foldl (fun m h => dictInsert m (pyLower h.name) h.value) []

/-- Decoder failures of build_ddb_item_from_gmail_dict.
missingHeader models the KeyError raised by the header_map[...] lookup,
carrying the missing lower-cased header name; invalidDate models the
ValueError raised by parsedate_to_datetime, carrying the raw date
string. -/
inductive DecodeError where
  | missingHeader (name : String)
  | invalidDate (raw : String)
deriving DecidableEq, Repr

/-- Zero-pad a natural number to two digits (strftime %d %m %H %M %S). -/
def pad2 (n : Nat) : String :=
  if n < 10 then "0" ++ toString n else toString n

/-- Zero-pad a year to four digits (strftime %Y). -/
def pad4 (n : Nat) : String :=
  if n < 10 then "000" ++ toString n
  else if n < 100 then "00" ++ toString n
  else if n < 1000 then "0" ++ toString n
  else toString n

/-- strftime("%d/%m/%Y") on the local calendar fields of the datetime. -/
def fmt_dd_mm_yyyy (dt : PyDateTime) : String :=
  pad2 dt.day ++ "/" ++ pad2 dt.month ++ "/" ++ pad4 dt.year

/-- strftime("%H:%M:%S") on the local clock fields of the datetime. -/
def fmt_h_m_s (dt : PyDateTime) : String :=
  pad2 dt.hour ++ ":" ++ pad2 dt.minute ++ ":" ++ pad2 dt.second

/-- gmail_ingestor.build_ddb_item_from_gmail_dict.  Reads the three
required headers from the lower-cased header map, keeps only the address
component of parseaddr, formats the parsed date with %d/%m/%Y and
%H:%M:%S, and fills the remaining EmailRecord fields from the attrs
defaults (labels is never passed, so it stays the empty list). -/
def build_ddb_item_from_gmail_dict (env : EmailEnv) (message : GmailMessage) :
    Except DecodeError EmailRecord :=
  let header_map := headerMapOf message.payload.headers
  match dictGet header_map "from" with
  | none => .error (.missingHeader "from")
  | some from_raw =>
    match dictGet header_map "subject" with
    | none => .error (.missingHeader "subject")
    | some subject =>
      match dictGet header_map "date" with
      | none => .error (.missingHeader "date")
      | some date_sent =>
        let from_address := (env.parseaddr from_raw).2
        match env.parsedate_to_datetime date_sent with
        | none => .error (.invalidDate date_sent)
        | some parse_date =>
          .ok { message_id := message.id
                from_address := from_address
                subject := subject
                date := fmt_dd_mm_yyyy parse_date
                time := fmt_h_m_s parse_date
                labels := []
                ingested_at := env.now_utc_iso
                status := "NEW"
                action := "apply_label" }

/-- A DynamoDB attribute value as produced by attrs.asdict on an
EmailRecord: either a string or a list of strings. -/
inductive AttrValue where
  | s (v : String)
  | l (v : List String)
deriving DecidableEq, Repr

/-- A stored DynamoDB item: the attribute map attrs.asdict produces. -/
abbrev Item : Type := List (String × AttrValue)

/-- attrs.asdict on an EmailRecord: the nine attributes in declaration
order. -/
def asdict (r : EmailRecord) : Item :=
  [ ("from_address", .s r.from_address)
  , ("message_id", .s r.message_id)
  , ("subject", .s r.subject)
  , ("date", .s r.date)
  , ("time", .s r.time)
  , ("labels", .l r.labels)
  , ("ingested_at", .s r.ingested_at)
  , ("status", .s r.status)
  , ("action", .s r.action) ]

/-- Attribute lookup in an item. -/
def attrGet (it : Item) (name : String) : Option AttrValue :=
  (it.find? (fun p => p.1 = name)).map (fun p => p.2)

/-- The key schema of a DynamoDB table: partition and sort attribute
names. -/
structure KeySchema where
  partition_key : String
  sort_key : String

/-- The key schema declared by MomentsAppStack._build_dynamodb:
partition key from_address, sort key subject (both strings). -/
def momentsKeySchema : KeySchema :=
  { partition_key := "from_address", sort_key := "subject" }

/-- The primary key of an item under a key schema. -/
def primaryKey (ks : KeySchema) (it : Item) :
    Option AttrValue × Option AttrValue :=
  (attrGet it ks.partition_key, attrGet it ks.sort_key)

/-- A DynamoDB table state: the list of stored items. -/
abbrev DDBTable : Type := List Item

/-- The DynamoDB invariant: no two stored items share a primary key. -/
def uniqKeys (ks : KeySchema) (tbl : DDBTable) : Prop :=
  tbl.Pairwise (fun a b => primaryKey ks a ≠ primaryKey ks b)

/-- The documented contract of Table.put_item: an unconditional upsert by
the primary key.  An item whose key is already present replaces the
stored item wholesale; otherwise the item is added. -/
def ddb_put_item (ks : KeySchema) (tbl : DDBTable) (it : Item) : DDBTable :=
  if tbl.any (fun x => primaryKey ks x = primaryKey ks it) then
    tbl.map (fun x => if primaryKey ks x = primaryKey ks it then it else x)
  else
    tbl ++ [it]

/-- gmail_ingestor._put_item: build the record from the message, convert
it with asdict and put it into the moments table.  A decoder exception
propagates to the caller. -/
def put_item_helper (env : EmailEnv) (tbl : DDBTable) (message : GmailMessage) :
    Except DecodeError DDBTable :=
  (build_ddb_item_from_gmail_dict env message).map
    (fun r => ddb_put_item momentsKeySchema tbl (asdict r))

/-- The status dict returned by put_item_into_dynamodb (the StatusBody
TypedDict of the source). -/
structure StatusBody where
  status_code : Nat
  message : String
deriving DecidableEq, Repr

/-- Python truthiness of the optional MOMENTS_TABLE environment value:
None and the empty string are falsy. -/
def py_truthy : Option String → Bool
  | none => false
  | some s => !s.isEmpty

/-- The str(e) text of a decoder exception, as caught by the generic
except-Exception branch: str(KeyError(name)) quotes the missing key,
str(ValueError) carries the parser message about the raw value. -/
def decodeErrorText : DecodeError → String
  | .missingHeader name => "\x27" ++ name ++ "\x27"
  | .invalidDate raw => "Invalid date value or format " ++ raw

/-- gmail_ingestor.put_item_into_dynamodb: if MOMENTS_TABLE is falsy,
return early with a status dict (status_code 200) and touch nothing;
otherwise build and put the item, returning a 200 status on success and
a 500 status when a decoder exception reaches the generic handler.  The
result pairs the returned status dict with the table state after the
call. -/
def put_item_into_dynamodb (env : EmailEnv) (moments_table : Option String)
    (event : GmailMessage) (tbl : DDBTable) : StatusBody × DDBTable :=
  if !py_truthy moments_table then
    ({ status_code := 200
       message := "Configuration environment variable missing" }, tbl)
  else
    match put_item_helper env tbl event with
    | .ok tbl2 =>
        ({ status_code := 200
           message := "Item successfully written to DynamoDB" }, tbl2)
    | .error e =>
        ({ status_code := 500, message := decodeErrorText e }, tbl)

/-- gmail_ingestor.handler: calls put_item_into_dynamodb, discards the
returned status dict, and falls off the end of the function, so Python
returns None.  The first component is the value the invoker observes. -/
def ingestor_handler (env : EmailEnv) (moments_table : Option String)
    (event : GmailMessage) (tbl : DDBTable) : Option StatusBody × DDBTable :=
  (none, (put_item_into_dynamodb env moments_table event tbl).2)

/-- Invoke the ingestor handler once per message of a batch, threading
the table state, and collect each message identifier with the value the
handler returned for it.  This is the consumer loop the deployment
creates: the stack wires the queue with batch_size 4 and
report_batch_item_failures True, so redelivery is driven purely by the
per-invocation return values collected here. -/
def consume_batch (env : EmailEnv) (moments_table : Option String)
    (msgs : List GmailMessage) (tbl : DDBTable) :
    List (String × Option StatusBody) × DDBTable :=
  match msgs with
  | [] => ([], tbl)
  | m :: rest =>
      let (ret, tbl2) := ingestor_handler env moments_table m tbl
      let (reports, tbl3) := consume_batch env moments_table rest tbl2
      ((m.id, ret) :: reports, tbl3)

/-- A per-message return value signals failure exactly when it carries a
status dict whose status_code is not 200; a None return signals
nothing. -/
def signalsFailure : Option StatusBody → Bool
  | none => false
  | some s => s.status_code ≠ 200

/-- The message identifiers a batch run reports as failed: those whose
handler invocation returned a failure signal. -/
def reportedFailedIds (reports : List (String × Option StatusBody)) :
    List String :=
  (reports.filter (fun p => signalsFailure p.2)).map (fun p => p.1)

/-- The outcome of the powertools parameters.get_secret call made by
gmail_processor.get_secret: a secret string, a botocore ClientError
(with its optional Error.Code, Error.Message and
ResponseMetadata.HTTPStatusCode fields), or any other exception. -/
inductive GetSecretOutcome where
  | ok (value : String)
  | clientError (code : Option String) (message : Option String)
      (httpStatus : Option Nat)
  | otherError (message : String)
deriving DecidableEq, Repr

/-- The statusCode of the retriever response: the ClientError branch
falls back to the string UnknownStatusCode when ResponseMetadata carries
no HTTPStatusCode. -/
inductive PyStatusCode where
  | num (n : Nat)
  | str (s : String)
deriving DecidableEq, Repr

/-- The json body of the retriever response, structured instead of
serialized: success carries the message, the secret name and the secret
value; clientErr carries the error code and optional message; unhandled
carries str(e). -/
inductive RetrieverBody where
  | success (message : String) (secret : Option String) (secret_value : String)
  | clientErr (error : String) (message : Option String)
  | unhandled (message : String)
deriving DecidableEq, Repr

/-- The response dict of gmail_processor.get_secret. -/
structure RetrieverResponse where
  statusCode : PyStatusCode
  body : RetrieverBody
deriving DecidableEq, Repr

/-- gmail_processor.get_secret: a falsy SECRET_NAME is only logged, not
returned on; the outcome of the parameters.get_secret call then decides
the response.  Total: every branch returns a response dict. -/
def get_secret (secret_name : Option String)
    (outcome : GetSecretOutcome) : RetrieverResponse :=
  match outcome with
  | .ok v =>
      { statusCode := .num 200
        body := .success "Successfully retrieved secret." secret_name v }
  | .clientError code msg st =>
      { statusCode :=
          match st with
          | some n => .num n
          | none => .str "UnknownStatusCode"
        body := .clientErr (code.getD "UnknownError") msg }
  | .otherError msg =>
      { statusCode := .num 500, body := .unhandled msg }

/-- gmail_processor.handler: calls get_secret, discards the response
dict, and falls off the end of the function, so Python returns None. -/
def retriever_handler (secret_name : Option String)
    (outcome : GetSecretOutcome) : Option RetrieverResponse :=
  let _ := get_secret secret_name outcome
  none

/-- A concrete instantiation of the stdlib collaborators, agreeing with
the real email.utils functions on the inputs used in witnesses: the
display-name address from the spec example, plus one RFC 5322 date at
UTC and one at +05:30. -/
def testEnv : EmailEnv :=
  { parseaddr := fun s =>
      if s = "Jane Doe <jane@example.com>" then ("Jane Doe", "jane@example.com")
      else ("", s)
    parsedate_to_datetime := fun s =>
      if s = "Mon, 02 Jan 2023 15:04:05 +0000" then
        some { year := 2023, month := 1, day := 2
               hour := 15, minute := 4, second := 5, tzMinutes := 0 }
      else if s = "Tue, 03 Jan 2023 09:08:07 +0530" then
        some { year := 2023, month := 1, day := 3
               hour := 9, minute := 8, second := 7, tzMinutes := 330 }
      else none
    now_utc_iso := "2023-01-02T16:00:00+00:00" }

/-- A well-formed test message matching the worked example of the spec. -/
def msgJane : GmailMessage :=
  { id := "msg-001"
    labelIds := ["INBOX"]
    payload := { headers :=
      [ { name := "From", value := "Jane Doe <jane@example.com>" }
      , { name := "Subject", value := "Hello" }
      , { name := "Date", value := "Mon, 02 Jan 2023 15:04:05 +0000" } ] } }

/-- A second message with the same sender and subject but a different
identifier and date. -/
def msgJane2 : GmailMessage :=
  { id := "msg-002"
    labelIds := []
    payload := { headers :=
      [ { name := "From", value := "Jane Doe <jane@example.com>" }
      , { name := "Subject", value := "Hello" }
      , { name := "Date", value := "Tue, 03 Jan 2023 09:08:07 +0530" } ] } }

/-- A message with no subject header: its decoding fails. -/
def msgNoSubject : GmailMessage :=
  { id := "msg-bad"
    labelIds := []
    payload := { headers :=
      [ { name := "From", value := "Jane Doe <jane@example.com>" }
      , { name := "Date", value := "Mon, 02 Jan 2023 15:04:05 +0000" } ] } }

/-- Lookup as the spec sentence words it for claim comparison: the FIRST
header whose lower-cased name matches wins. -/
def firstMatchLookup (headers : List GmailHeader) (k : String) : Option String :=
  (headers.find? (fun h => pyLower h.name = k)).map (fun h => h.value)

/-- Lookup as the dict comprehension actually behaves: the LAST header
whose lower-cased name matches wins. -/
def lastMatchLookup (headers : List GmailHeader) (k : String) : Option String :=
  (headers.reverse.find? (fun h => pyLower h.name = k)).map (fun h => h.value)

/-- The message has a header of the given lower-cased name. -/
def hasHdr (msg : GmailMessage) (n : String) : Bool :=
  msg.payload.headers.any (fun h => pyLower h.name = n)

/-- The first required header name missing from the message, in the
order the decoder reads them (from, subject, date). -/
def firstMissingRequired (msg : GmailMessage) : Option String :=
  if hasHdr msg "from" = false then some "from"
  else if hasHdr msg "subject" = false then some "subject"
  else if hasHdr msg "date" = false then some "date"
  else none

/-- The subject of the record the decoder produces, if any. -/
def decodedSubject (env : EmailEnv) (m : GmailMessage) : Option String :=
  match build_ddb_item_from_gmail_dict env m with
  | .ok r => some r.subject
  | .error _ => none

/-- The labels of the record the decoder produces, if any. -/
def decodedLabels (env : EmailEnv) (m : GmailMessage) : Option (List String) :=
  match build_ddb_item_from_gmail_dict env m with
  | .ok r => some r.labels
  | .error _ => none

lemma dictGet_cons (a : String × String) (m : List (String × String))
    (k' : String) :
    dictGet (a :: m) k' = if a.1 = k' then some a.2 else dictGet m k' := by
  by_cases h : a.1 = k' <;> simp [dictGet, List.find?_cons, h]

lemma dictGet_map_overwrite (m : List (String × String)) (k v k' : String) :
    dictGet (m.map (fun p => if p.1 = k then (k, v) else p)) k' =
      if k' = k then (if m.any (fun p => p.1 = k) then some v else none)
      else dictGet m k' := by
  induction m with
  | nil => by_cases h : k' = k <;> simp [dictGet, h]
  | cons a m ih =>
    simp only [List.map_cons]
    by_cases ha : a.1 = k
    · rw [if_pos ha, dictGet_cons]
      by_cases hk : k' = k
      · subst hk
        simp [ha, List.any_cons]
      · have h1 : ¬((k, v).1 = k') := fun h => hk h.symm
        have h2 : ¬(a.1 = k') := by rw [ha]; exact h1
        rw [if_neg h1, ih, if_neg hk, if_neg hk, dictGet_cons, if_neg h2]
    · rw [if_neg ha, dictGet_cons]
      by_cases hak : a.1 = k'
      · have hk : ¬k' = k := fun h => ha (hak.trans h)
        rw [if_pos hak, if_neg hk, dictGet_cons, if_pos hak]
      · rw [if_neg hak, ih, dictGet_cons, if_neg hak]
        by_cases hk : k' = k
        · rw [if_pos hk, if_pos hk]
          have hd : decide (a.1 = k) = false := by simp [ha]
          rw [List.any_cons, hd, Bool.false_or]
        · rw [if_neg hk, if_neg hk]

lemma dictGet_dictInsert (m : List (String × String)) (k v k' : String) :
    dictGet (dictInsert m k v) k' =
      if k' = k then some v else dictGet m k' := by
  unfold dictInsert
  by_cases hany : m.any (fun p => p.1 = k)
  · rw [if_pos hany, dictGet_map_overwrite, hany]
    by_cases hk : k' = k <;> simp [hk]
  · rw [if_neg hany]
    rw [Bool.not_eq_true] at hany
    by_cases hk : k' = k
    · subst hk
      have hnone : m.find? (fun p => decide (p.1 = k')) = none := by
        rw [List.find?_eq_none]
        intro x hx
        simpa using List.any_eq_false.mp hany x hx
      simp [dictGet, List.find?_append, hnone]
    · have hne : ¬(k = k') := fun h => hk h.symm
      have hone : List.find? (fun p => decide (p.1 = k')) [(k, v)] = none := by
        simp [List.find?_cons, hne]
      simp [dictGet, List.find?_append, hone, hk]

lemma option_map_or {α β : Type} (x y : Option α) (f : α → β) :
    (x.or y).map f = (x.map f).or (y.map f) := by
  cases x <;> rfl

lemma lastMatchLookup_cons (h : GmailHeader) (t : List GmailHeader)
    (k : String) :
    lastMatchLookup (h :: t) k =
      (lastMatchLookup t k).or
        (if pyLower h.name = k then some h.value else none) := by
  unfold lastMatchLookup
  rw [List.reverse_cons, List.find?_append, option_map_or]
  congr 1
  by_cases hm : pyLower h.name = k <;> simp [List.find?_cons, hm]

lemma dictGet_foldl_insert (hs : List GmailHeader)
    (m : List (String × String)) (k : String) :
    dictGet (hs.foldl (fun acc h => dictInsert acc (pyLower h.name) h.value) m) k =
      (lastMatchLookup hs k).or (dictGet m k) := by
  induction hs generalizing m with
  | nil => simp [lastMatchLookup]
  | cons h t ih =>
    rw [List.foldl_cons, ih, lastMatchLookup_cons, Option.or_assoc]
    congr 1
    rw [dictGet_dictInsert]
    by_cases hm : pyLower h.name = k
    · simp [hm]
    · have hmk : ¬(k = pyLower h.name) := fun e => hm e.symm
      simp [hm, hmk]

/-- The header map the decoder builds resolves every lookup to the value
of the LAST header whose lower-cased name matches: the dict
comprehension lets later duplicates overwrite earlier ones. -/
lemma dictGet_headerMapOf (hs : List GmailHeader) (k : String) :
    dictGet (headerMapOf hs) k = lastMatchLookup hs k := by
  unfold headerMapOf
  rw [dictGet_foldl_insert]
  simp [dictGet]

lemma dictGet_headerMapOf_eq_none (hs : List GmailHeader) (k : String) :
    dictGet (headerMapOf hs) k = none ↔
      hs.any (fun h => pyLower h.name = k) = false := by
  rw [dictGet_headerMapOf]
  unfold lastMatchLookup
  rw [Option.map_eq_none', List.find?_eq_none, List.any_eq_false]
  simp [List.mem_reverse]

lemma hasHdr_false_iff (msg : GmailMessage) (n : String) :
    hasHdr msg n = false ↔
      dictGet (headerMapOf msg.payload.headers) n = none := by
  rw [dictGet_headerMapOf_eq_none, hasHdr]

lemma build_ok_fields (env : EmailEnv) (msg : GmailMessage) (r : EmailRecord)
    (hok : build_ddb_item_from_gmail_dict env msg = .ok r) :
    r.message_id = msg.id ∧ r.labels = [] ∧ r.ingested_at = env.now_utc_iso ∧
    r.status = "NEW" ∧ r.action = "apply_label" := by
  simp only [build_ddb_item_from_gmail_dict] at hok
  repeat' split at hok
  all_goals first
    | exact (Except.noConfusion hok)
    | (injection hok with h; subst h; exact ⟨rfl, rfl, rfl, rfl, rfl⟩)

lemma primaryKey_asdict (r : EmailRecord) :
    primaryKey momentsKeySchema (asdict r) =
      (some (.s r.from_address), some (.s r.subject)) := by
  rfl

lemma filter_map_keyfree (ks : KeySchema) (it : Item) (t : List Item)
    (hall : ∀ b ∈ t, primaryKey ks b ≠ primaryKey ks it) :
    (t.map (fun x => if primaryKey ks x = primaryKey ks it then it else x)).filter
      (fun x => primaryKey ks x = primaryKey ks it) = [] := by
  rw [List.filter_eq_nil_iff]
  intro a ha
  rw [List.mem_map] at ha
  obtain ⟨b, hb, hfb⟩ := ha
  have hne := hall b hb
  rw [if_neg hne] at hfb
  subst hfb
  simp [hne]

lemma filter_map_replace (ks : KeySchema) (it : Item) :
    ∀ (t : List Item),
      t.Pairwise (fun a b => primaryKey ks a ≠ primaryKey ks b) →
      t.any (fun x => primaryKey ks x = primaryKey ks it) = true →
      (t.map (fun x => if primaryKey ks x = primaryKey ks it then it else x)).filter
        (fun x => primaryKey ks x = primaryKey ks it) = [it] := by
  intro t
  induction t with
  | nil => intro _ hany; simp at hany
  | cons a t ih =>
    intro hp hany
    rw [List.pairwise_cons] at hp
    obtain ⟨hat, hpt⟩ := hp
    by_cases hka : primaryKey ks a = primaryKey ks it
    · simp only [List.map_cons, if_pos hka, List.filter_cons]
      have hall : ∀ b ∈ t, primaryKey ks b ≠ primaryKey ks it := by
        intro b hb e
        exact hat b hb (hka.trans e.symm)
      rw [filter_map_keyfree ks it t hall]
      simp
    · simp only [List.map_cons, if_neg hka, List.filter_cons]
      have hd : decide (primaryKey ks a = primaryKey ks it) = false := by
        simp [hka]
      rw [hd]
      have hany' : t.any (fun x => primaryKey ks x = primaryKey ks it) = true := by
        rw [List.any_cons, hd, Bool.false_or] at hany
        exact hany
      exact ih hpt hany'

lemma put_filter (ks : KeySchema) (tbl : DDBTable) (it : Item)
    (huniq : uniqKeys ks tbl) :
    (ddb_put_item ks tbl it).filter
      (fun x => primaryKey ks x = primaryKey ks it) = [it] := by
  unfold ddb_put_item
  by_cases hany : tbl.any (fun x => primaryKey ks x = primaryKey ks it) = true
  · rw [if_pos hany]
    exact filter_map_replace ks it tbl huniq hany
  · rw [if_neg hany, List.filter_append]
    rw [Bool.not_eq_true] at hany
    have h1 : tbl.filter (fun x => primaryKey ks x = primaryKey ks it) = [] := by
      rw [List.filter_eq_nil_iff]
      intro a ha
      simpa using List.any_eq_false.mp hany a ha
    have h2 : ([it] : List Item).filter
        (fun x => primaryKey ks x = primaryKey ks it) = [it] := by simp
    rw [h1, h2, List.nil_append]

lemma put_uniq (ks : KeySchema) (tbl : DDBTable) (it : Item)
    (huniq : uniqKeys ks tbl) : uniqKeys ks (ddb_put_item ks tbl it) := by
  unfold ddb_put_item uniqKeys
  by_cases hany : tbl.any (fun x => primaryKey ks x = primaryKey ks it) = true
  · rw [if_pos hany, List.pairwise_map]
    have hpk : ∀ x : Item,
        primaryKey ks (if primaryKey ks x = primaryKey ks it then it else x) =
          primaryKey ks x := by
      intro x
      by_cases h : primaryKey ks x = primaryKey ks it
      · rw [if_pos h, h]
      · rw [if_neg h]
    exact List.Pairwise.imp (fun {a b} h => by rw [hpk a, hpk b]; exact h) huniq
  · rw [if_neg hany, List.pairwise_append]
    rw [Bool.not_eq_true] at hany
    refine ⟨huniq, List.pairwise_singleton _ _, ?_⟩
    intro a ha b hb
    rw [List.mem_singleton] at hb
    subst hb
    simpa using List.any_eq_false.mp hany a ha

lemma no_write_of_error (env : EmailEnv) (mt : Option String)
    (msg : GmailMessage) (tbl : DDBTable) (e : DecodeError)
    (herr : build_ddb_item_from_gmail_dict env msg = .error e) :
    put_item_into_dynamodb env mt msg tbl =
      (if py_truthy mt then
        { status_code := 500, message := decodeErrorText e }
       else
        { status_code := 200
          message := "Configuration environment variable missing" }, tbl) := by
  unfold put_item_into_dynamodb put_item_helper
  cases ht : py_truthy mt <;> simp [ht, herr, Except.map]

lemma write_of_ok (env : EmailEnv) (mt : Option String) (msg : GmailMessage)
    (tbl : DDBTable) (r : EmailRecord) (hmt : py_truthy mt = true)
    (hok : build_ddb_item_from_gmail_dict env msg = .ok r) :
    put_item_into_dynamodb env mt msg tbl =
      ({ status_code := 200
         message := "Item successfully written to DynamoDB" },
       ddb_put_item momentsKeySchema tbl (asdict r)) := by
  unfold put_item_into_dynamodb put_item_helper
  simp [hmt, hok, Except.map]

lemma any_key_after_put (ks : KeySchema) (tbl : DDBTable) (it : Item) :
    (ddb_put_item ks tbl it).any
      (fun x => primaryKey ks x = primaryKey ks it) = true := by
  unfold ddb_put_item
  by_cases hany : tbl.any (fun x => primaryKey ks x = primaryKey ks it) = true
  · rw [if_pos hany, List.any_eq_true]
    obtain ⟨x, hx, hpx⟩ := List.any_eq_true.mp hany
    refine ⟨it, ?_, by simp⟩
    rw [List.mem_map]
    simp only [decide_eq_true_eq] at hpx
    exact ⟨x, hx, by rw [if_pos hpx]⟩
  · rw [if_neg hany, List.any_eq_true]
    exact ⟨it, by simp, by simp⟩

lemma put_length_present (ks : KeySchema) (tbl : DDBTable) (it : Item)
    (h : tbl.any (fun x => primaryKey ks x = primaryKey ks it) = true) :
    (ddb_put_item ks tbl it).length = tbl.length := by
  unfold ddb_put_item
  rw [if_pos h, List.length_map]

/-- The record the spec example expects for msgJane. -/
def janeRecord : EmailRecord :=
  { from_address := "jane@example.com"
    message_id := "msg-001"
    subject := "Hello"
    date := "02/01/2023"
    time := "15:04:05"
    labels := []
    ingested_at := "2023-01-02T16:00:00+00:00"
    status := "NEW"
    action := "apply_label" }

/-- The record produced for msgJane2: same sender and subject, different
identifier and timestamp. -/
def janeRecord2 : EmailRecord :=
  { janeRecord with
    message_id := "msg-002"
    date := "03/01/2023"
    time := "09:08:07" }

lemma double_put_same_key (tbl : DDBTable) (r r2 : EmailRecord)
    (huniq : uniqKeys momentsKeySchema tbl)
    (hfrom : r.from_address = r2.from_address)
    (hsubj : r.subject = r2.subject) :
    (ddb_put_item momentsKeySchema
        (ddb_put_item momentsKeySchema tbl (asdict r)) (asdict r2)).filter
      (fun x => primaryKey momentsKeySchema x =
        primaryKey momentsKeySchema (asdict r2)) = [asdict r2] ∧
    (ddb_put_item momentsKeySchema
        (ddb_put_item momentsKeySchema tbl (asdict r)) (asdict r2)).length =
      (ddb_put_item momentsKeySchema tbl (asdict r)).length ∧
    uniqKeys momentsKeySchema
      (ddb_put_item momentsKeySchema
        (ddb_put_item momentsKeySchema tbl (asdict r)) (asdict r2)) := by
  have h1 : uniqKeys momentsKeySchema
      (ddb_put_item momentsKeySchema tbl (asdict r)) :=
    put_uniq _ _ _ huniq
  have hkey : primaryKey momentsKeySchema (asdict r) =
      primaryKey momentsKeySchema (asdict r2) := by
    rw [primaryKey_asdict, primaryKey_asdict, hfrom, hsubj]
  have hany : (ddb_put_item momentsKeySchema tbl (asdict r)).any
      (fun x => primaryKey momentsKeySchema x =
        primaryKey momentsKeySchema (asdict r2)) = true := by
    simp only [← hkey]
    exact any_key_after_put _ _ _
  exact ⟨put_filter _ _ _ h1, put_length_present _ _ _ hany, put_uniq _ _ _ h1⟩

/-- C1: writing twice with records sharing the (from_address, subject)
key is idempotent on the keyed store: from any store satisfying the
DynamoDB key invariant, after both put_item upserts the store holds
exactly one item under that key, that item is the most recent write, the
second write adds no item (the store size is unchanged by it), and the
key invariant is preserved. -/
theorem c1_write_idempotent (tbl : DDBTable) (r r2 : EmailRecord)
    (huniq : uniqKeys momentsKeySchema tbl)
    (hfrom : r.from_address = r2.from_address)
    (hsubj : r.subject = r2.subject) :
    (ddb_put_item momentsKeySchema
        (ddb_put_item momentsKeySchema tbl (asdict r)) (asdict r2)).filter
      (fun x => primaryKey momentsKeySchema x =
        primaryKey momentsKeySchema (asdict r2)) = [asdict r2] ∧
    (ddb_put_item momentsKeySchema
        (ddb_put_item momentsKeySchema tbl (asdict r)) (asdict r2)).length =
      (ddb_put_item momentsKeySchema tbl (asdict r)).length ∧
    uniqKeys momentsKeySchema
      (ddb_put_item momentsKeySchema
        (ddb_put_item momentsKeySchema tbl (asdict r)) (asdict r2)) :=
  double_put_same_key tbl r r2 huniq hfrom hsubj

theorem c1_write_idempotent_witness :
    uniqKeys momentsKeySchema [] ∧
    janeRecord.from_address = janeRecord2.from_address ∧
    janeRecord.subject = janeRecord2.subject ∧
    ((ddb_put_item momentsKeySchema
        (ddb_put_item momentsKeySchema [] (asdict janeRecord))
        (asdict janeRecord2)).filter
      (fun x => primaryKey momentsKeySchema x =
        primaryKey momentsKeySchema (asdict janeRecord2)) =
        [asdict janeRecord2] ∧
     (ddb_put_item momentsKeySchema
        (ddb_put_item momentsKeySchema [] (asdict janeRecord))
        (asdict janeRecord2)).length =
      (ddb_put_item momentsKeySchema [] (asdict janeRecord)).length ∧
     uniqKeys momentsKeySchema
      (ddb_put_item momentsKeySchema
        (ddb_put_item momentsKeySchema [] (asdict janeRecord))
        (asdict janeRecord2))) :=
  ⟨List.Pairwise.nil, rfl, rfl,
    c1_write_idempotent [] janeRecord janeRecord2 List.Pairwise.nil rfl rfl⟩

lemma attrGet_message_id (r : EmailRecord) :
    attrGet (asdict r) "message_id" = some (.s r.message_id) := by
  rfl

/-- C3: two messages with identical decoded sender and subject but
different message identifiers occupy the same storage slot under the
partition key from_address and sort key subject: after writing both, the
store holds exactly one item under that key, the second write added no
item (silent overwrite), the surviving item carries the second message
identifier, and keys stay unique (from_address plus subject identify one
slot). -/
theorem c3_same_key_overwrites (env : EmailEnv) (tbl : DDBTable)
    (m1 m2 : GmailMessage) (r1 r2 : EmailRecord)
    (huniq : uniqKeys momentsKeySchema tbl)
    (h1 : build_ddb_item_from_gmail_dict env m1 = .ok r1)
    (h2 : build_ddb_item_from_gmail_dict env m2 = .ok r2)
    (hfrom : r1.from_address = r2.from_address)
    (hsubj : r1.subject = r2.subject)
    (hid : m1.id ≠ m2.id) :
    put_item_helper env tbl m1 =
      .ok (ddb_put_item momentsKeySchema tbl (asdict r1)) ∧
    put_item_helper env (ddb_put_item momentsKeySchema tbl (asdict r1)) m2 =
      .ok (ddb_put_item momentsKeySchema
        (ddb_put_item momentsKeySchema tbl (asdict r1)) (asdict r2)) ∧
    (ddb_put_item momentsKeySchema
        (ddb_put_item momentsKeySchema tbl (asdict r1)) (asdict r2)).filter
      (fun x => primaryKey momentsKeySchema x =
        primaryKey momentsKeySchema (asdict r2)) = [asdict r2] ∧
    (ddb_put_item momentsKeySchema
        (ddb_put_item momentsKeySchema tbl (asdict r1)) (asdict r2)).length =
      (ddb_put_item momentsKeySchema tbl (asdict r1)).length ∧
    attrGet (asdict r1) "message_id" = some (.s m1.id) ∧
    attrGet (asdict r2) "message_id" = some (.s m2.id) ∧
    attrGet (asdict r1) "message_id" ≠ attrGet (asdict r2) "message_id" ∧
    uniqKeys momentsKeySchema
      (ddb_put_item momentsKeySchema
        (ddb_put_item momentsKeySchema tbl (asdict r1)) (asdict r2)) := by
  have hc := double_put_same_key tbl r1 r2 huniq hfrom hsubj
  have hm1 : r1.message_id = m1.id := (build_ok_fields env m1 r1 h1).1
  have hm2 : r2.message_id = m2.id := (build_ok_fields env m2 r2 h2).1
  refine ⟨?_, ?_, hc.1, hc.2.1, ?_, ?_, ?_, hc.2.2⟩
  · simp [put_item_helper, h1, Except.map]
  · simp [put_item_helper, h2, Except.map]
  · rw [attrGet_message_id, hm1]
  · rw [attrGet_message_id, hm2]
  · rw [attrGet_message_id, attrGet_message_id, hm1, hm2]
    intro h
    exact hid (by injection h with h2; injection h2)

theorem c3_same_key_overwrites_witness :
    uniqKeys momentsKeySchema [] ∧
    build_ddb_item_from_gmail_dict testEnv msgJane = .ok janeRecord ∧
    build_ddb_item_from_gmail_dict testEnv msgJane2 = .ok janeRecord2 ∧
    janeRecord.from_address = janeRecord2.from_address ∧
    janeRecord.subject = janeRecord2.subject ∧
    msgJane.id ≠ msgJane2.id ∧
    (put_item_helper testEnv [] msgJane =
      .ok (ddb_put_item momentsKeySchema [] (asdict janeRecord)) ∧
     put_item_helper testEnv
        (ddb_put_item momentsKeySchema [] (asdict janeRecord)) msgJane2 =
      .ok (ddb_put_item momentsKeySchema
        (ddb_put_item momentsKeySchema [] (asdict janeRecord))
        (asdict janeRecord2)) ∧
     (ddb_put_item momentsKeySchema
        (ddb_put_item momentsKeySchema [] (asdict janeRecord))
        (asdict janeRecord2)).filter
      (fun x => primaryKey momentsKeySchema x =
        primaryKey momentsKeySchema (asdict janeRecord2)) =
        [asdict janeRecord2] ∧
     (ddb_put_item momentsKeySchema
        (ddb_put_item momentsKeySchema [] (asdict janeRecord))
        (asdict janeRecord2)).length =
      (ddb_put_item momentsKeySchema [] (asdict janeRecord)).length ∧
     attrGet (asdict janeRecord) "message_id" = some (.s msgJane.id) ∧
     attrGet (asdict janeRecord2) "message_id" = some (.s msgJane2.id) ∧
     attrGet (asdict janeRecord) "message_id" ≠
       attrGet (asdict janeRecord2) "message_id" ∧
     uniqKeys momentsKeySchema
      (ddb_put_item momentsKeySchema
        (ddb_put_item momentsKeySchema [] (asdict janeRecord))
        (asdict janeRecord2))) :=
  ⟨List.Pairwise.nil, by rfl, by rfl, rfl, rfl, by decide,
    c3_same_key_overwrites testEnv [] msgJane msgJane2 janeRecord janeRecord2
      List.Pairwise.nil (by rfl) (by rfl) rfl rfl (by decide)⟩

/-- C9 (evaluating the code at the failing input): with MOMENTS_TABLE
unset, put_item_into_dynamodb returns early and writes nothing, but the
status dict it returns carries status_code 200 — the very code the
success path uses, as the second conjunct shows — and the handler
discards even that dict and returns None.  The invocation therefore does
not fail and reports no configuration-level failure, contradicting the
claim. -/
theorem c9_missing_config_reports_success :
    put_item_into_dynamodb testEnv none msgJane [] =
      ({ status_code := 200
         message := "Configuration environment variable missing" }, []) ∧
    (put_item_into_dynamodb testEnv (some "moments-table") msgJane
        []).1.status_code = 200 ∧
    ingestor_handler testEnv none msgJane [] = (none, []) := by
  exact ⟨rfl, by rfl, rfl⟩

/-- C10: for every event, table state, secret name and provider outcome,
both public handlers return None — the ingestor handler performs the
same store effect as put_item_into_dynamodb but discards its status
dict, and the retriever handler discards the response dict of
get_secret — so the invoker observes no success or failure status from
either return value. -/
theorem c10_handlers_return_none (env : EmailEnv) (mt : Option String)
    (event : GmailMessage) (tbl : DDBTable) (sn : Option String)
    (outcome : GetSecretOutcome) :
    (ingestor_handler env mt event tbl).1 = none ∧
    (ingestor_handler env mt event tbl).2 =
      (put_item_into_dynamodb env mt event tbl).2 ∧
    retriever_handler sn outcome = none :=
  ⟨rfl, rfl, rfl⟩

/-- C2 (evaluating the code at the failing input): a batch of two
messages in which the first fails decoding.  Invoking the handler once
per message writes the one decodable record, but every invocation
returns None, so the set of message identifiers reported as failed is
empty — not the singleton the claim (and the partial-batch-failure
configuration of the stack) requires. -/
theorem c2_no_failed_ids_reported :
    build_ddb_item_from_gmail_dict testEnv msgNoSubject =
      .error (.missingHeader "subject") ∧
    (consume_batch testEnv (some "moments-table") [msgNoSubject, msgJane]
        []).2 = [asdict janeRecord] ∧
    reportedFailedIds
      (consume_batch testEnv (some "moments-table") [msgNoSubject, msgJane]
        []).1 = [] ∧
    reportedFailedIds
      (consume_batch testEnv (some "moments-table") [msgNoSubject, msgJane]
        []).1 ≠ [msgNoSubject.id] := by
  have h0 : reportedFailedIds
      (consume_batch testEnv (some "moments-table") [msgNoSubject, msgJane]
        []).1 = [] := by rfl
  refine ⟨by rfl, by rfl, h0, ?_⟩
  rw [h0]
  intro h
  exact List.noConfusion h

lemma dictGet_of_hasHdr (msg : GmailMessage) (n : String)
    (h : hasHdr msg n = true) :
    ∃ v, dictGet (headerMapOf msg.payload.headers) n = some v := by
  cases hd : dictGet (headerMapOf msg.payload.headers) n with
  | none =>
    have := (hasHdr_false_iff msg n).mpr hd
    rw [h] at this
    exact Bool.noConfusion this
  | some v => exact ⟨v, rfl⟩

/-- C4: a message whose header list lacks one of the required headers
from, subject or date (by lower-cased name) fails decoding with the
missing-header failure naming the first absent required header — a
header that is indeed absent and is one of the three — and the store is
left unchanged: no EmailRecord is produced or written. -/
theorem c4_missing_header_fails (env : EmailEnv) (msg : GmailMessage)
    (mt : Option String) (tbl : DDBTable)
    (hmiss : (hasHdr msg "from" && hasHdr msg "subject" &&
      hasHdr msg "date") = false) :
    build_ddb_item_from_gmail_dict env msg =
      .error (.missingHeader ((firstMissingRequired msg).getD "")) ∧
    hasHdr msg ((firstMissingRequired msg).getD "") = false ∧
    ((firstMissingRequired msg).getD "" = "from" ∨
     (firstMissingRequired msg).getD "" = "subject" ∨
     (firstMissingRequired msg).getD "" = "date") ∧
    (put_item_into_dynamodb env mt msg tbl).2 = tbl := by
  have hfi : ∀ e, build_ddb_item_from_gmail_dict env msg = .error e →
      (put_item_into_dynamodb env mt msg tbl).2 = tbl := by
    intro e herr
    rw [no_write_of_error env mt msg tbl e herr]
  by_cases hf : hasHdr msg "from" = false
  · have hnone := (hasHdr_false_iff msg "from").mp hf
    have hbuild : build_ddb_item_from_gmail_dict env msg =
        .error (.missingHeader "from") := by
      simp only [build_ddb_item_from_gmail_dict, hnone]
    have hfmr : firstMissingRequired msg = some "from" := by
      simp [firstMissingRequired, hf]
    rw [hfmr]
    exact ⟨hbuild, hf, Or.inl rfl, hfi _ hbuild⟩
  · have hft : hasHdr msg "from" = true := by
      revert hf; cases hasHdr msg "from" <;> simp
    obtain ⟨vf, hvf⟩ := dictGet_of_hasHdr msg "from" hft
    by_cases hsu : hasHdr msg "subject" = false
    · have hnone := (hasHdr_false_iff msg "subject").mp hsu
      have hbuild : build_ddb_item_from_gmail_dict env msg =
          .error (.missingHeader "subject") := by
        simp only [build_ddb_item_from_gmail_dict, hvf, hnone]
      have hfmr : firstMissingRequired msg = some "subject" := by
        simp [firstMissingRequired, hft, hsu]
      rw [hfmr]
      exact ⟨hbuild, hsu, Or.inr (Or.inl rfl), hfi _ hbuild⟩
    · have hst : hasHdr msg "subject" = true := by
        revert hsu; cases hasHdr msg "subject" <;> simp
      obtain ⟨vs, hvs⟩ := dictGet_of_hasHdr msg "subject" hst
      by_cases hdd : hasHdr msg "date" = false
      · have hnone := (hasHdr_false_iff msg "date").mp hdd
        have hbuild : build_ddb_item_from_gmail_dict env msg =
            .error (.missingHeader "date") := by
          simp only [build_ddb_item_from_gmail_dict, hvf, hvs, hnone]
        have hfmr : firstMissingRequired msg = some "date" := by
          simp [firstMissingRequired, hft, hst, hdd]
        rw [hfmr]
        exact ⟨hbuild, hdd, Or.inr (Or.inr rfl), hfi _ hbuild⟩
      · have hdt : hasHdr msg "date" = true := by
          revert hdd; cases hasHdr msg "date" <;> simp
        rw [hft, hst, hdt] at hmiss
        exact Bool.noConfusion hmiss

theorem c4_missing_header_fails_witness :
    (hasHdr msgNoSubject "from" && hasHdr msgNoSubject "subject" &&
      hasHdr msgNoSubject "date") = false ∧
    (build_ddb_item_from_gmail_dict testEnv msgNoSubject =
      .error (.missingHeader ((firstMissingRequired msgNoSubject).getD "")) ∧
     hasHdr msgNoSubject ((firstMissingRequired msgNoSubject).getD "")
       = false ∧
     ((firstMissingRequired msgNoSubject).getD "" = "from" ∨
      (firstMissingRequired msgNoSubject).getD "" = "subject" ∨
      (firstMissingRequired msgNoSubject).getD "" = "date") ∧
     (put_item_into_dynamodb testEnv (some "moments-table") msgNoSubject
        []).2 = []) :=
  ⟨by decide,
    c4_missing_header_fails testEnv msgNoSubject (some "moments-table") []
      (by decide)⟩

lemma build_ok_shape (env : EmailEnv) (msg : GmailMessage) (r : EmailRecord)
    (hok : build_ddb_item_from_gmail_dict env msg = .ok r) :
    ∃ from_raw subj date_sent dt,
      dictGet (headerMapOf msg.payload.headers) "from" = some from_raw ∧
      dictGet (headerMapOf msg.payload.headers) "subject" = some subj ∧
      dictGet (headerMapOf msg.payload.headers) "date" = some date_sent ∧
      env.parsedate_to_datetime date_sent = some dt ∧
      r = { from_address := (env.parseaddr from_raw).2
            message_id := msg.id
            subject := subj
            date := fmt_dd_mm_yyyy dt
            time := fmt_h_m_s dt
            labels := []
            ingested_at := env.now_utc_iso
            status := "NEW"
            action := "apply_label" } := by
  cases hf : dictGet (headerMapOf msg.payload.headers) "from" with
  | none =>
    simp only [build_ddb_item_from_gmail_dict, hf] at hok
    exact Except.noConfusion hok
  | some from_raw =>
    cases hs : dictGet (headerMapOf msg.payload.headers) "subject" with
    | none =>
      simp only [build_ddb_item_from_gmail_dict, hf, hs] at hok
      exact Except.noConfusion hok
    | some subj =>
      cases hd : dictGet (headerMapOf msg.payload.headers) "date" with
      | none =>
        simp only [build_ddb_item_from_gmail_dict, hf, hs, hd] at hok
        exact Except.noConfusion hok
      | some date_sent =>
        cases hp : env.parsedate_to_datetime date_sent with
        | none =>
          simp only [build_ddb_item_from_gmail_dict, hf, hs, hd, hp] at hok
          exact Except.noConfusion hok
        | some dt =>
          simp only [build_ddb_item_from_gmail_dict, hf, hs, hd, hp] at hok
          injection hok with h
          exact ⟨from_raw, subj, date_sent, dt, rfl, rfl, rfl, hp, h.symm⟩

/-- A message carrying two subject headers whose lower-cased names
collide: Subject with value A first, SUBJECT with value B second. -/
def msgDupSubject : GmailMessage :=
  { id := "msg-dup"
    labelIds := []
    payload := { headers :=
      [ { name := "From", value := "Jane Doe <jane@example.com>" }
      , { name := "Subject", value := "A" }
      , { name := "SUBJECT", value := "B" }
      , { name := "Date", value := "Mon, 02 Jan 2023 15:04:05 +0000" } ] } }

/-- C5 counterexample: on a message with duplicate subject headers the
first matching value is A, yet the decoder produces subject B — the dict
comprehension lets the later header overwrite the earlier one, so the
first match does NOT win. -/
theorem c5_first_match_counterexample :
    firstMatchLookup msgDupSubject.payload.headers "subject" = some "A" ∧
    decodedSubject testEnv msgDupSubject = some "B" ∧
    decodedSubject testEnv msgDupSubject ≠
      firstMatchLookup msgDupSubject.payload.headers "subject" := by
  refine ⟨by rfl, by rfl, ?_⟩
  have h0 : decodedSubject testEnv msgDupSubject = some "B" := by rfl
  have h1 : firstMatchLookup msgDupSubject.payload.headers "subject" =
      some "A" := by rfl
  rw [h0, h1]
  intro h
  injection h with h2
  exact absurd h2 (by decide)

/-- C5 amended: for duplicated header names among the required fields the
decoder uses the LAST matching header value (matching is by lower-cased
name): every lookup through the header map resolves to the last match,
and in particular the subject of a successfully built record is the last
subject header value. -/
theorem c5_last_match_wins (env : EmailEnv) (msg : GmailMessage)
    (r : EmailRecord) (k : String)
    (hok : build_ddb_item_from_gmail_dict env msg = .ok r) :
    some r.subject = lastMatchLookup msg.payload.headers "subject" ∧
    dictGet (headerMapOf msg.payload.headers) k =
      lastMatchLookup msg.payload.headers k := by
  refine ⟨?_, dictGet_headerMapOf _ _⟩
  obtain ⟨from_raw, subj, date_sent, dt, hf, hs, hd, hp, hr⟩ :=
    build_ok_shape env msg r hok
  subst hr
  rw [← dictGet_headerMapOf]
  exact hs.symm

theorem c5_last_match_wins_witness :
    build_ddb_item_from_gmail_dict testEnv msgDupSubject =
      .ok { from_address := "jane@example.com"
            message_id := "msg-dup"
            subject := "B"
            date := "02/01/2023"
            time := "15:04:05"
            labels := []
            ingested_at := "2023-01-02T16:00:00+00:00"
            status := "NEW"
            action := "apply_label" } ∧
    (some ({ from_address := "jane@example.com"
             message_id := "msg-dup"
             subject := "B"
             date := "02/01/2023"
             time := "15:04:05"
             labels := []
             ingested_at := "2023-01-02T16:00:00+00:00"
             status := "NEW"
             action := "apply_label" } : EmailRecord).subject =
      lastMatchLookup msgDupSubject.payload.headers "subject" ∧
     dictGet (headerMapOf msgDupSubject.payload.headers) "subject" =
      lastMatchLookup msgDupSubject.payload.headers "subject") :=
  ⟨by rfl,
    c5_last_match_wins testEnv msgDupSubject _ "subject" (by rfl)⟩

/-- C6: for a message whose from, subject and date headers are present
and whose date parses, decode followed by build yields exactly the
record whose from_address is the bare address component of parseaddr
(display name discarded) and whose date and time are the %d/%m/%Y and
%H:%M:%S renderings of the parsed local calendar and clock fields — the
formatter reads dt.day, dt.month, dt.year, dt.hour, dt.minute,
dt.second and never applies the tzMinutes offset, so nothing is
normalized to UTC. -/
theorem c6_decode_build_local_fields (env : EmailEnv) (msg : GmailMessage)
    (from_raw subj date_raw : String) (dt : PyDateTime)
    (hf : dictGet (headerMapOf msg.payload.headers) "from" = some from_raw)
    (hs : dictGet (headerMapOf msg.payload.headers) "subject" = some subj)
    (hd : dictGet (headerMapOf msg.payload.headers) "date" = some date_raw)
    (hp : env.parsedate_to_datetime date_raw = some dt) :
    build_ddb_item_from_gmail_dict env msg =
      .ok { from_address := (env.parseaddr from_raw).2
            message_id := msg.id
            subject := subj
            date := pad2 dt.day ++ "/" ++ pad2 dt.month ++ "/" ++ pad4 dt.year
            time := pad2 dt.hour ++ ":" ++ pad2 dt.minute ++ ":" ++
              pad2 dt.second
            labels := []
            ingested_at := env.now_utc_iso
            status := "NEW"
            action := "apply_label" } := by
  simp only [build_ddb_item_from_gmail_dict, hf, hs, hd, hp]
  rfl

theorem c6_decode_build_local_fields_witness :
    dictGet (headerMapOf msgJane2.payload.headers) "from" =
      some "Jane Doe <jane@example.com>" ∧
    dictGet (headerMapOf msgJane2.payload.headers) "subject" = some "Hello" ∧
    dictGet (headerMapOf msgJane2.payload.headers) "date" =
      some "Tue, 03 Jan 2023 09:08:07 +0530" ∧
    testEnv.parsedate_to_datetime "Tue, 03 Jan 2023 09:08:07 +0530" =
      some { year := 2023, month := 1, day := 3
             hour := 9, minute := 8, second := 7, tzMinutes := 330 } ∧
    build_ddb_item_from_gmail_dict testEnv msgJane2 =
      .ok { from_address :=
              (testEnv.parseaddr "Jane Doe <jane@example.com>").2
            message_id := msgJane2.id
            subject := "Hello"
            date := pad2 3 ++ "/" ++ pad2 1 ++ "/" ++ pad4 2023
            time := pad2 9 ++ ":" ++ pad2 8 ++ ":" ++ pad2 7
            labels := []
            ingested_at := testEnv.now_utc_iso
            status := "NEW"
            action := "apply_label" } :=
  ⟨by rfl, by rfl, by rfl, by rfl,
    c6_decode_build_local_fields testEnv msgJane2
      "Jane Doe <jane@example.com>" "Hello" "Tue, 03 Jan 2023 09:08:07 +0530"
      { year := 2023, month := 1, day := 3
        hour := 9, minute := 8, second := 7, tzMinutes := 330 }
      (by rfl) (by rfl) (by rfl) (by rfl)⟩

/-- A message whose date header is present but unparsable and whose from
header is absent. -/
def msgDateNoFrom : GmailMessage :=
  { id := "msg-nofrom"
    labelIds := []
    payload := { headers :=
      [ { name := "Date", value := "not-a-real-date" } ] } }

/-- C7 counterexample: a message whose date header is present and
unparsable but whose from header is missing fails with the
missing-header failure for from, not with the invalid-date failure the
claim promises for every such message. -/
theorem c7_invalid_date_counterexample :
    dictGet (headerMapOf msgDateNoFrom.payload.headers) "date" =
      some "not-a-real-date" ∧
    testEnv.parsedate_to_datetime "not-a-real-date" = none ∧
    build_ddb_item_from_gmail_dict testEnv msgDateNoFrom =
      .error (.missingHeader "from") ∧
    build_ddb_item_from_gmail_dict testEnv msgDateNoFrom ≠
      .error (.invalidDate "not-a-real-date") := by
  have h0 : build_ddb_item_from_gmail_dict testEnv msgDateNoFrom =
      .error (.missingHeader "from") := by rfl
  refine ⟨by rfl, by rfl, h0, ?_⟩
  rw [h0]
  intro h
  injection h with h1
  exact DecodeError.noConfusion h1

/-- C7 amended: provided the from and subject headers are present (if one
of them is missing the decoder fails with that missing-header error
first), a present but unparsable date header makes decoding fail with
the invalid-date failure carrying the raw date value, and nothing is
written to the store. -/
theorem c7_invalid_date_fails (env : EmailEnv) (msg : GmailMessage)
    (from_raw subj date_raw : String) (mt : Option String) (tbl : DDBTable)
    (hf : dictGet (headerMapOf msg.payload.headers) "from" = some from_raw)
    (hs : dictGet (headerMapOf msg.payload.headers) "subject" = some subj)
    (hd : dictGet (headerMapOf msg.payload.headers) "date" = some date_raw)
    (hp : env.parsedate_to_datetime date_raw = none) :
    build_ddb_item_from_gmail_dict env msg =
      .error (.invalidDate date_raw) ∧
    (put_item_into_dynamodb env mt msg tbl).2 = tbl := by
  have hbuild : build_ddb_item_from_gmail_dict env msg =
      .error (.invalidDate date_raw) := by
    simp only [build_ddb_item_from_gmail_dict, hf, hs, hd, hp]
  exact ⟨hbuild, by rw [no_write_of_error env mt msg tbl _ hbuild]⟩

/-- A message with valid from and subject headers and an unparsable
date. -/
def msgBadDate : GmailMessage :=
  { id := "msg-baddate"
    labelIds := []
    payload := { headers :=
      [ { name := "From", value := "Jane Doe <jane@example.com>" }
      , { name := "Subject", value := "Hello" }
      , { name := "Date", value := "not-a-real-date" } ] } }

theorem c7_invalid_date_fails_witness :
    dictGet (headerMapOf msgBadDate.payload.headers) "from" =
      some "Jane Doe <jane@example.com>" ∧
    dictGet (headerMapOf msgBadDate.payload.headers) "subject" =
      some "Hello" ∧
    dictGet (headerMapOf msgBadDate.payload.headers) "date" =
      some "not-a-real-date" ∧
    testEnv.parsedate_to_datetime "not-a-real-date" = none ∧
    (build_ddb_item_from_gmail_dict testEnv msgBadDate =
      .error (.invalidDate "not-a-real-date") ∧
     (put_item_into_dynamodb testEnv (some "moments-table") msgBadDate
        []).2 = []) :=
  ⟨by rfl, by rfl, by rfl, by rfl,
    c7_invalid_date_fails testEnv msgBadDate "Jane Doe <jane@example.com>"
      "Hello" "not-a-real-date" (some "moments-table") []
      (by rfl) (by rfl) (by rfl) (by rfl)⟩

/-- C8 counterexample: msgJane carries label INBOX, yet the record the
builder produces has empty labels — labels is never passed at the
construction site, so the attrs default (the empty list) is used and the
source label tags are NOT copied. -/
theorem c8_labels_counterexample :
    msgJane.labelIds = ["INBOX"] ∧
    decodedLabels testEnv msgJane = some [] ∧
    decodedLabels testEnv msgJane ≠ some msgJane.labelIds := by
  have h0 : decodedLabels testEnv msgJane = some [] := by rfl
  refine ⟨rfl, h0, ?_⟩
  rw [h0]
  intro h
  injection h with h1
  exact List.noConfusion h1.symm

/-- C8 amended: every successfully built record has the source message
identifier as message_id, the build-time UTC timestamp as ingested_at,
status NEW and action apply_label — but its labels are always the empty
list, never a copy of the source label tags. -/
theorem c8_record_builder_fields (env : EmailEnv) (msg : GmailMessage)
    (r : EmailRecord)
    (hok : build_ddb_item_from_gmail_dict env msg = .ok r) :
    r.message_id = msg.id ∧ r.labels = [] ∧
    r.ingested_at = env.now_utc_iso ∧ r.status = "NEW" ∧
    r.action = "apply_label" :=
  build_ok_fields env msg r hok

theorem c8_record_builder_fields_witness :
    build_ddb_item_from_gmail_dict testEnv msgJane = .ok janeRecord ∧
    (janeRecord.message_id = msgJane.id ∧ janeRecord.labels = [] ∧
     janeRecord.ingested_at = testEnv.now_utc_iso ∧
     janeRecord.status = "NEW" ∧ janeRecord.action = "apply_label") :=
  ⟨by rfl, c8_record_builder_fields testEnv msgJane janeRecord (by rfl)⟩
